import Mathlib

set_option maxRecDepth 8192

/-!
Verification of the restaurant-ops backend (src/main.py): closing lifecycle,
validation, and weekly-budget reconciliation.

Conventions of the shallow embedding:
* Money is modeled as `Rat` (the source uses Python floats over currency
  amounts; NaN/Infinity are rejected by validation before any arithmetic that
  matters, and rejected values are unrepresentable in `Rat`, so those checks
  are vacuous here and noted where they occur).
* Calendar days are modeled as `Nat` day counts from a fixed Monday epoch, so
  `weekday d = d % 7` with Monday = 0, matching Python's `date.weekday()`.
* The Airtable record store is modeled as in-memory lists of records inside
  `DB`; `table.all(formula=...)` becomes `List.filter`/`List.find?` with the
  formula translated into a Boolean predicate, `table.get` becomes a lookup
  by record id, and `table.update` maps a field-update function over the
  record with the given id.
* An Airtable field that can be absent is an `Option`; fields the code always
  reads through `... or 0` / `or ""` defaults are plain values.
-/

namespace RestOps

abbrev Money := Rat

/-- `monday_of_week` from src/main.py:158: `d - timedelta(days=d.weekday())`.
Days are counted from a Monday epoch, so the weekday offset is `d % 7`. -/
def monday_of_week (d : Nat) : Nat := d - d % 7

/-- `normalize_store_value` from src/main.py:148: lowercase, trim, strip the
apostrophe variants. -/
def normalize_store_value (store : String) : String :=
  (((store.toLower.trim).replace "’" "").replace "‘" "").replace "'" ""

/-- The `Store` linked-record field of a daily closing. The upsert endpoint
writes either a list of linked record ids (`fields["Store"] = [store_id]`)
or, on the legacy path, a bare store-name string. -/
inductive StoreField
  | ids (l : List String)
  | name (s : String)
deriving Repr, DecidableEq

/-- One row of the Daily Closing table. `storeId` models the `{Store ID}`
column referenced by the weekly-budget lock formula (an Airtable-side column
mirroring the linked store's record id). `storeNormalized` models the
`{Store Normalized}` column read by the upsert matching loop. A missing
`Food Cost Deducted` reads as 0 everywhere in the source, so it is a plain
`Money`. -/
structure Closing where
  id : String
  store : StoreField
  storeId : String
  storeNormalized : String
  date : Nat
  totalSales : Option Money
  netSales : Option Money
  cashPayments : Option Money
  cardPayments : Option Money
  digitalPayments : Option Money
  grabPayments : Option Money
  voucherPayments : Option Money
  bankTransferPayments : Option Money
  marketingExpenses : Option Money
  actualCashCounted : Option Money
  cashFloat : Option Money
  kitchenBudget : Option Money
  barBudget : Option Money
  nonFoodBudget : Option Money
  staffMealBudget : Option Money
  lockStatus : String
  verifiedStatus : String
  verifiedBy : String
  verifiedAt : Option String
  verificationNotes : String
  foodCostDeducted : Money
  submittedBy : String
  lastUpdatedBy : String
  tenantId : String
  unlockedAt : Option String
  unlockedBy : String
  lastUpdatedAt : String
deriving Repr, DecidableEq

/-- One row of the Weekly Budgets table. `originalAmount` models the
`Original Weekly Budget Amount` column and `originalAlt` the
`Original Weekly Budget` column (the lock endpoint probes both names);
`none` means the column is absent/empty on the record. -/
structure Budget where
  id : String
  store : List String
  storeId : String
  weekStart : Nat
  weekEnd : Nat
  kitchenWeekly : Money
  barWeekly : Money
  weeklyBudgetAmount : Money
  foodCostDeducted : Money
  remainingBudget : Money
  status : String
  originalAmount : Option Money
  originalAlt : Option Money
  lockedBy : Option String
  lockedAt : Option String
  lastUpdatedAt : String
deriving Repr, DecidableEq

/-- One row of the Stores table (only the primary display name matters to the
core logic). -/
structure StoreRec where
  id : String
  name : String
deriving Repr, DecidableEq

/-- The external record store: Daily Closings, Weekly Budgets, Stores. -/
structure DB where
  closings : List Closing
  budgets : List Budget
  stores : List StoreRec
deriving Repr, DecidableEq

/-- Decidable equality for endpoint outcomes, so concrete runs of the model
can be checked by `decide`. -/
instance instDecEqExceptOutcome {ε α : Type} [DecidableEq ε] [DecidableEq α] :
    DecidableEq (Except ε α) := fun x y =>
  match x, y with
  | .ok a, .ok b =>
    match decEq a b with
    | isTrue h => isTrue (by rw [h])
    | isFalse h => isFalse (fun hc => by cases hc; exact h rfl)
  | .error a, .error b =>
    match decEq a b with
    | isTrue h => isTrue (by rw [h])
    | isFalse h => isFalse (fun hc => by cases hc; exact h rfl)
  | .ok _, .error _ => isFalse (fun hc => by cases hc)
  | .error _, .ok _ => isFalse (fun hc => by cases hc)

/-- `table.get` on the Daily Closings table. -/
def getClosing (db : DB) (rid : String) : Option Closing :=
  db.closings.find? (fun c => c.id == rid)

/-- `table.update` on the Daily Closings table: applies the field updates to
the record with the given id. -/
def updateClosing (db : DB) (rid : String) (f : Closing → Closing) : DB :=
  { db with closings := db.closings.map (fun c => if c.id == rid then f c else c) }

/-- `table.get` on the Weekly Budgets table. -/
def getBudget (db : DB) (bid : String) : Option Budget :=
  db.budgets.find? (fun b => b.id == bid)

/-- `table.update` on the Weekly Budgets table. -/
def updateBudget (db : DB) (bid : String) (f : Budget → Budget) : DB :=
  { db with budgets := db.budgets.map (fun b => if b.id == bid then f b else b) }

/-- `resolve_store_display_name` from src/main.py:167: resolves a Stores
record id to its display name, returning `""` on any failure. -/
def resolve_store_display_name (db : DB) (store_id : String) : String :=
  if store_id = "" then ""
  else
    match db.stores.find? (fun s => s.id == store_id) with
    | some s => s.name
    | none => ""

/-- `food_spend_from_fields` from src/main.py:161:
`Kitchen Budget + Bar Budget`, each defaulted to 0. -/
def food_spend_from_fields (c : Closing) : Money :=
  c.kitchenBudget.getD 0 + c.barBudget.getD 0

/-- Substring test over char lists, used to model Airtable's `FIND`. -/
def charsContain (needle : List Char) : List Char → Bool
  | [] => needle.isEmpty
  | c :: t => needle.isPrefixOf (c :: t) || charsContain needle t

/-- Airtable `FIND(needle, hay)` used as a Boolean (nonzero position means
found). -/
def airtableFind (needle hay : String) : Bool :=
  charsContain needle.toList hay.toList

/-- Airtable `ARRAYJOIN` with its default comma separator. -/
def arrayJoin (xs : List String) : String := String.intercalate "," xs

/-- In an Airtable formula, a linked-record field such as `{Store}` renders as
the linked records' primary-field values; this joins the display names of the
budget's linked stores as `ARRAYJOIN({Store})` does. -/
def budgetStoreJoin (db : DB) (b : Budget) : String :=
  arrayJoin (b.store.map (resolve_store_display_name db))

/-- The Python first-element access `store_ids[0]` applied to the `Store`
field: `fields.get("Store") or []` turns an empty list or empty string into
`[]` (then the caller bails out); indexing a non-empty string yields its
first character. -/
def storeFieldFirst : StoreField → Option String
  | .ids [] => none
  | .ids (sid :: _) => some sid
  | .name s =>
    match s.toList with
    | [] => none
    | c :: _ => some (String.mk [c])

/-- The weekly-budget lookup formula used by `verify_closing`
(src/main.py:2275-2281):
`AND(FIND(store_name, ARRAYJOIN({Store})), IS_SAME({Week Start}, week_start),
{Status}='Locked')`. -/
def locked_budget_pred (db : DB) (store_name : String) (week_start : Nat) (b : Budget) : Bool :=
  airtableFind store_name (budgetStoreJoin db b)
    && b.weekStart == week_start
    && b.status == "Locked"

/-- The helper `get_locked_weekly_budget_record` defined inside
`verify_closing` (src/main.py:2252): bail out when the closing has no linked
store or date, resolve the store display name (falling back to the raw id),
resolve the Monday of the closing's week, then query the Weekly Budgets
table with `locked_budget_pred`, taking at most one record. -/
def get_locked_weekly_budget_record (db : DB) (fields : Closing) : Option Budget :=
  (storeFieldFirst fields.store).bind (fun sid =>
    db.budgets.find? (locked_budget_pred db
      (if resolve_store_display_name db sid = "" then sid else resolve_store_display_name db sid)
      (monday_of_week fields.date)))

/-- The verification result body returned by `/verify` (src/main.py:2409). -/
structure VerifyResult where
  record_id : String
  new_status : String
  notes_saved : String
deriving Repr, DecidableEq

/-- The base field updates `verify_closing` always writes
(src/main.py:2227-2242): status fields plus the locking behaviour. -/
def verify_status_update (status vby notes now : String) (c : Closing) : Closing :=
  { c with
    verifiedStatus := status
    verificationNotes := notes
    verifiedBy := if vby = "" then "System" else vby
    lastUpdatedBy := if vby = "" then "System" else vby
    verifiedAt := if status = "Verified" then some now else none
    lockStatus := if status = "Verified" then "Locked" else "Unlocked" }

/-- The weekly-budget write of the verification delta path
(src/main.py:2332-2339): `remaining` and `running_deducted` are the values
read from the looked-up budget record; the new remaining budget is written
without a lower clamp. -/
def budget_apply_delta (remaining running_deducted delta : Money) (now : String)
    (b : Budget) : Budget :=
  { b with
    remainingBudget := remaining - delta
    foodCostDeducted := running_deducted + delta
    lastUpdatedAt := now }

/-- The weekly-budget write of the reversal path (src/main.py:2367-2374):
add the closing's anchor back to the remaining budget and subtract it from
the running deduction, floored at 0. -/
def budget_reverse (remaining running_deducted current_food_deducted : Money)
    (now : String) (b : Budget) : Budget :=
  { b with
    remainingBudget := remaining + current_food_deducted
    foodCostDeducted := max 0 (running_deducted - current_food_deducted)
    lastUpdatedAt := now }

/-- The anchor write on the daily closing (src/main.py:2342-2347 and
2377-2382). -/
def set_food_cost_deducted (v : Money) (c : Closing) : Closing :=
  { c with foodCostDeducted := v }

/-- A record with no fields, the Python `fields = {}` fallback for a record
that disappears between a write and the following read. -/
def emptyClosing : Closing where
  id := ""
  store := .ids []
  storeId := ""
  storeNormalized := ""
  date := 0
  totalSales := none
  netSales := none
  cashPayments := none
  cardPayments := none
  digitalPayments := none
  grabPayments := none
  voucherPayments := none
  bankTransferPayments := none
  marketingExpenses := none
  actualCashCounted := none
  cashFloat := none
  kitchenBudget := none
  barBudget := none
  nonFoodBudget := none
  staffMealBudget := none
  lockStatus := ""
  verifiedStatus := ""
  verifiedBy := ""
  verifiedAt := none
  verificationNotes := ""
  foodCostDeducted := 0
  submittedBy := ""
  lastUpdatedBy := ""
  tenantId := ""
  unlockedAt := none
  unlockedBy := ""
  lastUpdatedAt := ""

/-- `POST /verify` (`verify_closing`, src/main.py:2197-2414). Returns the
state after the call together with the HTTP outcome: `Except.error` carries
the HTTP status code, `Except.ok none` models the two bare `return`
statements inside the reconciliation block (src/main.py:2316 and 2326), which
exit the endpoint with a `null` body, and `Except.ok (some r)` models the
final success dictionary. The verification email is an external fire-and-
forget collaborator and is not modeled. -/
def verify_closing (db : DB) (record_id status verified_by notes now : String) :
    DB × Except Nat (Option VerifyResult) :=
  if record_id = "" ∨ status = "" then (db, .error 400)
  else
    match getClosing db record_id with
    | none => (db, .error 500)
    | some before =>
      let prev_status := before.verifiedStatus.trim
      let prev_food_deducted := before.foodCostDeducted
      let db1 := updateClosing db record_id (verify_status_update status verified_by notes now)
      let fields := (getClosing db1 record_id).getD emptyClosing
      let current_food_deducted := fields.foodCostDeducted
      if status = "Verified" then
        match get_locked_weekly_budget_record db1 fields with
        | none => (db1, .ok none)
        | some budget_record =>
          let new_food_spend := food_spend_from_fields fields
          let delta := new_food_spend - prev_food_deducted
          if delta = 0 then (db1, .ok none)
          else
            let remaining := budget_record.remainingBudget
            let running_deducted := budget_record.foodCostDeducted
            let db2 := updateBudget db1 budget_record.id
              (budget_apply_delta remaining running_deducted delta now)
            let db3 := updateClosing db2 record_id (set_food_cost_deducted new_food_spend)
            (db3, .ok (some ⟨record_id, status, notes⟩))
      else
        if prev_status = "Verified" ∧ 0 < current_food_deducted then
          let db2 :=
            match get_locked_weekly_budget_record db1 before with
            | some budget_record =>
              updateBudget db1 budget_record.id
                (budget_reverse budget_record.remainingBudget
                  budget_record.foodCostDeducted current_food_deducted now)
            | none => db1
          let db3 := updateClosing db2 record_id (set_food_cost_deducted 0)
          (db3, .ok (some ⟨record_id, status, notes⟩))
        else
          (db1, .ok (some ⟨record_id, status, notes⟩))

/-- `_constant_time_equal` from src/main.py:1596: reject on length mismatch,
else OR together the XORs of the character codes across all positions and
compare the accumulator with 0 at the end. -/
def constant_time_equal (a b : String) : Bool :=
  if a.length ≠ b.length then false
  else
    (List.zipWith (fun x y => x.toNat ^^^ y.toNat) a.toList b.toList).foldl
      (fun result v => result ||| v) 0 == 0

/-- `POST /closings/.../unlock` (`unlock_closing`, src/main.py:1606-1659):
404 when the record is missing, 401 when the stripped PIN fails the
constant-time comparison with the stripped manager PIN, otherwise unlock and
stamp the audit fields. History logging is best-effort and not modeled. -/
def unlock_closing (db : DB) (record_id pin manager_pin now : String) :
    DB × Except Nat Closing :=
  match getClosing db record_id with
  | none => (db, .error 404)
  | some _ =>
    if ¬ constant_time_equal pin.trim manager_pin.trim then (db, .error 401)
    else
      let db' := updateClosing db record_id (fun c =>
        { c with lockStatus := "Unlocked", unlockedAt := some now, unlockedBy := "Manager PIN" })
      (db', .ok ((getClosing db' record_id).getD emptyClosing))

/-- The `ClosingCreate` request model (src/main.py:236-266). Pydantic
defaults every money field to `0.0`; a client may still send an explicit
`null`, so the fields stay optional here. -/
structure ClosingCreate where
  business_date : Nat
  store_id : Option String
  store : Option String
  total_sales : Option Money
  net_sales : Option Money
  cash_payments : Option Money
  card_payments : Option Money
  digital_payments : Option Money
  grab_payments : Option Money
  bank_transfer_payments : Option Money
  voucher_payments : Option Money
  marketing_expenses : Option Money
  actual_cash_counted : Option Money
  cash_float : Option Money
  kitchen_budget : Option Money
  bar_budget : Option Money
  non_food_budget : Option Money
  staff_meal_budget : Option Money
  tenant_id : Option String
  submitted_by : Option String
deriving Repr, DecidableEq

/-- The fifteen numeric fields checked by the upsert validation block
(src/main.py:1364-1380), in source order. -/
def upsert_numeric_fields (p : ClosingCreate) : List (Option Money) :=
  [p.total_sales, p.net_sales, p.cash_payments, p.card_payments,
   p.digital_payments, p.grab_payments, p.voucher_payments,
   p.bank_transfer_payments, p.marketing_expenses, p.actual_cash_counted,
   p.cash_float, p.kitchen_budget, p.bar_budget, p.non_food_budget,
   p.staff_meal_budget]

/-- `payments_sum` from src/main.py:1393-1401. -/
def payments_sum (p : ClosingCreate) : Money :=
  p.cash_payments.getD 0 + p.card_payments.getD 0 + p.digital_payments.getD 0
    + p.grab_payments.getD 0 + p.voucher_payments.getD 0
    + p.bank_transfer_payments.getD 0 + p.marketing_expenses.getD 0

/-- `budget_total` from src/main.py:1410-1415. -/
def budget_total (p : ClosingCreate) : Money :=
  p.kitchen_budget.getD 0 + p.bar_budget.getD 0 + p.non_food_budget.getD 0
    + p.staff_meal_budget.getD 0

/-- The validation block of `upsert_closing` (src/main.py:1362-1421), in
source order: negative values (the NaN/Infinity test of the same loop cannot
fire over `Rat`), `net_sales > total_sales`, payments-sum tolerance of 1
against `total_sales`, and budget allocation versus `net_sales`. Returns the
HTTP status of the first failing rule. -/
def upsert_validation (p : ClosingCreate) : Option Nat :=
  if (upsert_numeric_fields p).any (fun v =>
      match v with
      | some x => decide (x < 0)
      | none => false) then some 400
  else if (match p.total_sales, p.net_sales with
           | some t, some n => decide (n > t)
           | _, _ => false) then some 400
  else if (match p.total_sales with
           | some t => decide (|payments_sum p - t| > 1)
           | none => false) then some 400
  else if (match p.net_sales with
           | some n => decide (budget_total p > n)
           | none => false) then some 400
  else none

/-- `resolve_tenant_id` from src/main.py:145: the explicit tenant if truthy,
else the configured default. -/
def resolve_tenant_id (explicit : Option String) (defaultTenant : String) : String :=
  match explicit with
  | some t => if t = "" then defaultTenant else t
  | none => defaultTenant

/-- The store-name resolution at the top of `upsert_closing`
(src/main.py:1347-1354): when the name is missing but a `store_id` is given,
look it up in the Stores table, keeping `""` on failure. -/
def upsert_resolve_store_name (db : DB) (store_id store_name : String) : String :=
  if store_name = "" ∧ store_id ≠ "" then
    match db.stores.find? (fun s => s.id == store_id) with
    | some s => s.name
    | none => store_name
  else store_name

/-- The find-existing loop of `upsert_closing` (src/main.py:1426-1445):
records of the same business date (the query is capped at 50 records), first
match by `store_id` membership in the linked `Store` list, else by normalized
store name against `{Store Normalized}`. -/
def upsert_find_existing (db : DB) (business_date : Nat) (store_id store_name : String) :
    Option Closing :=
  let candidates := (db.closings.filter (fun c => c.date == business_date)).take 50
  let normalized_target := normalize_store_value store_name
  candidates.find? (fun rec =>
    (store_id ≠ "" &&
      (match rec.store with
       | .ids l => l.contains store_id
       | .name _ => false))
    || (normalize_store_value rec.storeNormalized == normalized_target))

/-- The payload field-set written by `upsert_closing` (src/main.py:1463-1494)
applied to a record: every submitted field plus identity/audit stamps. The
server-computed display fields are popped before the write and so never
appear here. `storeId`/`storeNormalized` model Airtable-side computed columns:
`{Store ID}` mirrors the linked store id and `{Store Normalized}` is not part
of the write set (it stays whatever the table computes; on a fresh record it
starts empty). -/
def upsert_apply_fields (p : ClosingCreate) (store_id store_name tenant_id now : String)
    (c : Closing) : Closing :=
  { c with
    date := p.business_date
    tenantId := tenant_id
    submittedBy := (p.submitted_by.getD "")
    lastUpdatedBy := (p.submitted_by.getD "")
    totalSales := p.total_sales
    netSales := p.net_sales
    cashPayments := p.cash_payments
    cardPayments := p.card_payments
    digitalPayments := p.digital_payments
    grabPayments := p.grab_payments
    voucherPayments := p.voucher_payments
    bankTransferPayments := p.bank_transfer_payments
    marketingExpenses := p.marketing_expenses
    actualCashCounted := p.actual_cash_counted
    cashFloat := p.cash_float
    kitchenBudget := p.kitchen_budget
    barBudget := p.bar_budget
    nonFoodBudget := p.non_food_budget
    staffMealBudget := p.staff_meal_budget
    store := if store_id ≠ "" then .ids [store_id] else .name store_name
    storeId := store_id
    lastUpdatedAt := now }

/-- The write applied to an existing record by `upsert_closing`
(src/main.py:1499-1520): the payload field-set, plus — when the record was in
`Needs Update` — the resubmission resets (`Verified Status := Pending`,
`Verified At` cleared, `Food Cost Deducted := 0`), plus `Lock Status :=
Locked`. -/
def upsert_existing_update (p : ClosingCreate)
    (store_id store_name tenant_id now prev_verified_status : String)
    (c : Closing) : Closing :=
  let c1 := upsert_apply_fields p store_id store_name tenant_id now c
  let c2 :=
    if prev_verified_status = "Needs Update" then
      { c1 with verifiedStatus := "Pending", verifiedAt := none, foodCostDeducted := 0 }
    else c1
  { c2 with lockStatus := "Locked" }

/-- Outcome tag of `POST /closings`. -/
inductive UpsertStatus
  | created_locked
  | updated_locked
deriving Repr, DecidableEq

/-- `POST /closings` (`upsert_closing`, src/main.py:1322-1591). `newId` is
the record id the store assigns on create; `now` the timestamp;
`defaultTenant` the configured `DEFAULT_TENANT_ID`. Error codes: 400 for a
missing store or a validation failure, 403 for an existing locked record.
History logging and submission emails are external collaborators and are not
modeled. -/
def upsert_closing (db : DB) (p : ClosingCreate) (now newId defaultTenant : String) :
    DB × Except Nat (UpsertStatus × Closing) :=
  let store_id := (p.store_id.getD "").trim
  let store_name0 := (p.store.getD "").trim
  let tenant_id := resolve_tenant_id p.tenant_id defaultTenant
  let store_name := upsert_resolve_store_name db store_id store_name0
  if store_id = "" ∧ store_name = "" then (db, .error 400)
  else
    match upsert_validation p with
    | some code => (db, .error code)
    | none =>
      match upsert_find_existing db p.business_date store_id store_name with
      | some existing =>
        let lock_status := existing.lockStatus
        let prev_verified_status := existing.verifiedStatus
        if (lock_status = "Locked" ∨ lock_status = "Verified")
            ∧ prev_verified_status ≠ "Needs Update" then
          (db, .error 403)
        else
          let db' := updateClosing db existing.id
            (upsert_existing_update p store_id store_name tenant_id now prev_verified_status)
          let fresh := (getClosing db' existing.id).getD emptyClosing
          (db', .ok (.updated_locked, fresh))
      | none =>
        let newC :=
          { upsert_apply_fields p store_id store_name tenant_id now emptyClosing with
            id := newId
            lockStatus := "Locked" }
        let db' := { db with closings := db.closings ++ [newC] }
        (db', .ok (.created_locked, newC))

/-- The merged stored-plus-patch view the patch validation block reads
(src/main.py:1891-1908); unlike the create path it also reads
`Cash for Deposit`. -/
structure MergedView where
  totalSales : Option Money
  netSales : Option Money
  cashPayments : Option Money
  cardPayments : Option Money
  digitalPayments : Option Money
  grabPayments : Option Money
  voucherPayments : Option Money
  bankTransfer : Option Money
  marketingExpenses : Option Money
  actualCash : Option Money
  cashFloat : Option Money
  kitchenBudget : Option Money
  barBudget : Option Money
  nonFoodBudget : Option Money
  staffMealBudget : Option Money
  cashForDeposit : Option Money
deriving Repr, DecidableEq

/-- The merged payments sum of the patch validation block
(src/main.py:1951-1959). -/
def merged_payments_sum (m : MergedView) : Money :=
  m.cashPayments.getD 0 + m.cardPayments.getD 0 + m.digitalPayments.getD 0
    + m.grabPayments.getD 0 + m.voucherPayments.getD 0 + m.bankTransfer.getD 0
    + m.marketingExpenses.getD 0

/-- The validation block of `patch_closing` (src/main.py:1886-1990),
translated in source order: negatives (NaN/Infinity unrepresentable over
`Rat`), `net_sales ≤ total_sales`, payments-sum within ±1 of `total_sales`,
cash-for-deposit within ±1 of `actual_cash − cash_float`, and budget
allocation versus `net_sales`. This block is unreachable in the program (see
`patch_closing`), but it is the source's merged-view validation logic. -/
def patch_validation (m : MergedView) : Option Nat :=
  if ([m.totalSales, m.netSales, m.cashPayments, m.cardPayments,
       m.digitalPayments, m.grabPayments, m.voucherPayments, m.bankTransfer,
       m.marketingExpenses, m.actualCash, m.cashFloat, m.kitchenBudget,
       m.barBudget, m.nonFoodBudget, m.staffMealBudget,
       m.cashForDeposit].any (fun v =>
        match v with
        | some x => decide (x < 0)
        | none => false)) then some 400
  else if (match m.totalSales, m.netSales with
           | some t, some n => decide (n > t)
           | _, _ => false) then some 400
  else if (match m.totalSales with
           | some t => decide (|merged_payments_sum m - t| > 1)
           | none => false) then some 400
  else if (match m.actualCash, m.cashFloat, m.cashForDeposit with
           | some ac, some cf, some cd => decide (|ac - cf - cd| > 1)
           | _, _, _ => false) then some 400
  else if (match m.netSales with
           | some n =>
             decide (m.kitchenBudget.getD 0 + m.barBudget.getD 0
               + m.nonFoodBudget.getD 0 + m.staffMealBudget.getD 0 > n)
           | none => false) then some 400
  else none

/-- `PATCH /closings/...` (`patch_closing`, src/main.py:1844-2027). An empty
payload is rejected with 400 (line 1857). For any non-empty payload the very
next statement, `for f in FORMULA_FIELDS` (line 1861), references a name that
is bound nowhere in the program (no definition and no import of
`FORMULA_FIELDS` exists in src/), so Python raises `NameError`; the handler's
blanket `except Exception` (line 2025) surfaces it as HTTP 500. This happens
before `table.get(record_id)` on line 1865, so the record is never read, the
lock check, merged validation, write and history append (lines 1865-2021)
are unreachable, and the store is never touched. -/
def patch_closing (db : DB) (record_id : String) (updates : List (String × Money)) :
    DB × Except Nat Closing :=
  if updates.isEmpty then (db, .error 400)
  else (db, .error 500)

/-- `POST /weekly-budgets` (`upsert_weekly_budget`, src/main.py:464-583):
draft creation/edit. 400 for missing inputs or a non-Monday `week_start`,
403 for past weeks or a locked budget, 409 when the store+week pair is
ambiguous. On edit, `Remaining Budget` is written as
`max(0, total − already_deducted)`. -/
def upsert_weekly_budget (db : DB) (store_id : String) (week_start : Nat)
    (kitchen_budget bar_budget : Money) (today : Nat) (now newId : String) :
    DB × Except Nat String :=
  if store_id = "" then (db, .error 400)
  else if week_start % 7 ≠ 0 then (db, .error 400)
  else if week_start < monday_of_week today then (db, .error 403)
  else
    let found := db.budgets.filter (fun b =>
      b.storeId == store_id && b.weekStart == week_start)
    if found.length > 1 then (db, .error 409)
    else
      let total_budget := kitchen_budget + bar_budget
      match found.head? with
      | none =>
        let newB : Budget :=
          { id := newId
            store := [store_id]
            storeId := store_id
            weekStart := week_start
            weekEnd := week_start + 6
            originalAlt := some total_budget
            originalAmount := none
            weeklyBudgetAmount := total_budget
            kitchenWeekly := kitchen_budget
            barWeekly := bar_budget
            foodCostDeducted := 0
            remainingBudget := total_budget
            status := "Draft"
            lockedAt := none
            lockedBy := none
            lastUpdatedAt := now }
        ({ db with budgets := db.budgets ++ [newB] }, .ok newId)
      | some record =>
        if record.status = "Locked" then (db, .error 403)
        else
          let already_deducted := record.foodCostDeducted
          let db' := updateBudget db record.id (fun b =>
            { b with
              store := [store_id]
              storeId := store_id
              kitchenWeekly := kitchen_budget
              barWeekly := bar_budget
              weeklyBudgetAmount := total_budget
              remainingBudget := max 0 (total_budget - already_deducted)
              lastUpdatedAt := now })
          (db', .ok record.id)

/-- The closings filter of the lock recompute (src/main.py:686-697):
`{Verified Status}='Verified'`, `Date` strictly after `week_start − 1` day
and strictly before `week_end + 1` day (an inclusive Monday..Sunday window on
whole dates), and `{Store ID}` equal to the interpolated `store_id`. -/
def lock_closing_matches (store_id_str : String) (ws : Nat) (c : Closing) : Bool :=
  c.verifiedStatus == "Verified" && decide (ws ≤ c.date) && decide (c.date ≤ ws + 6)
    && c.storeId == store_id_str

/-- The lock recompute (src/main.py:695-697): sum of
`food_spend_from_fields` over the matching closings. -/
def verified_food_spend_sum (db : DB) (store_id_str : String) (ws : Nat) : Money :=
  ((db.closings.filter (lock_closing_matches store_id_str ws)).map
    food_spend_from_fields).sum

/-- The field writes of the lock action (src/main.py:721-745): finalize the
kitchen/bar/total numbers, the recomputed deduction, the clamped remaining
budget, the `Locked` stamps, and — only into whichever original column the
fetched `record` already carries, and only when that column's value is empty
or 0 — the original amount. -/
def lock_budget_update (record : Budget) (kitchen bar total_budget spent remaining : Money)
    (locked_by now : String) (b : Budget) : Budget :=
  { b with
    kitchenWeekly := kitchen
    barWeekly := bar
    weeklyBudgetAmount := total_budget
    foodCostDeducted := spent
    remainingBudget := remaining
    status := "Locked"
    lockedAt := some now
    lockedBy := some locked_by
    lastUpdatedAt := now
    originalAmount :=
      match record.originalAmount with
      | some v => if v = 0 then some total_budget else some v
      | none => record.originalAmount
    originalAlt :=
      match record.originalAmount with
      | some _ => record.originalAlt
      | none =>
        match record.originalAlt with
        | some v => if v = 0 then some total_budget else some v
        | none => none }

/-- Response body of `POST /weekly-budgets/lock`. -/
structure LockResult where
  status : String
  id : String
  weekly_budget : Money
  food_cost_deducted : Money
  remaining_budget : Money
deriving Repr, DecidableEq

/-- The record resolution of the lock endpoint (src/main.py:618-635): direct
fetch by `budget_id` when given, else lookup by `{Store ID}` and
`{Week Start}`. -/
def lock_find_record (db : DB) (budget_id store_id : Option String) (ws : Nat) :
    Option Budget :=
  match budget_id with
  | some bid => getBudget db bid
  | none => db.budgets.find? (fun b =>
      b.storeId == store_id.getD "" && b.weekStart == ws)

/-- The `store_id` value interpolated into the closings formula
(src/main.py:691): a Python f-string renders a missing `store_id` as the
literal string "None". -/
def lock_store_id_str (store_id : Option String) : String :=
  match store_id with
  | some s => s
  | none => "None"

/-- `POST /weekly-budgets/lock` (`lock_weekly_budget`, src/main.py:588-761).
The record is found by `budget_id` when given, else by `{Store ID}` and
`{Week Start}`. An already-locked budget returns its current numbers without
writing. Otherwise kitchen/bar come from the payload with the stored draft as
default, `Food Cost Deducted` is recomputed from scratch over the Verified
closings of the window, `Remaining Budget` is clamped at 0, and the original
amount is stamped only into whichever original column the record already
carries, and only when that column is empty or 0 (the Python membership test
`fields.get(name) in (None, "", 0)`). When the request carries no
`store_id`, the Python f-string interpolates `None` into the closings
formula, so the recompute filters on the literal string "None"
(src/main.py:691). -/
def lock_weekly_budget (db : DB) (budget_id store_id : Option String)
    (week_start : Option Nat) (payload_kitchen payload_bar : Option Money)
    (locked_by now : String) : DB × Except Nat LockResult :=
  match week_start with
  | none => (db, .error 400)
  | some ws =>
    if budget_id.isNone ∧ store_id.isNone then (db, .error 400)
    else if ws % 7 ≠ 0 then (db, .error 400)
    else
      match lock_find_record db budget_id store_id ws with
      | none => (db, .error 404)
      | some record =>
        if record.status.toLower = "locked" then
          (db, .ok ⟨"already_locked", record.id, record.weeklyBudgetAmount,
                    record.foodCostDeducted, record.remainingBudget⟩)
        else
          let kitchen := payload_kitchen.getD record.kitchenWeekly
          let bar := payload_bar.getD record.barWeekly
          let total_budget := kitchen + bar
          let spent := verified_food_spend_sum db (lock_store_id_str store_id) ws
          let remaining := max 0 (total_budget - spent)
          let db' := updateBudget db record.id
            (lock_budget_update record kitchen bar total_budget spent remaining locked_by now)
          (db', .ok ⟨"locked", record.id, total_budget, spent, remaining⟩)

/-! Concrete store states used to instantiate the theorems below. -/

def storeAlpha : StoreRec := ⟨"s1", "Alpha"⟩

/-- A pending, locked closing for store `s1` on day 2 (a Wednesday of the
epoch week) with food spend 100 + 50. -/
def closingR1 : Closing :=
  { emptyClosing with
    id := "r1", store := .ids ["s1"], storeId := "s1", date := 2
    kitchenBudget := some 100, barBudget := some 50
    verifiedStatus := "Pending", lockStatus := "Locked" }

/-- A closing already verified with its 150 anchor recorded. -/
def closingR2 : Closing :=
  { closingR1 with id := "r2", verifiedStatus := "Verified", foodCostDeducted := 150 }

/-- A locked weekly budget for `s1`, epoch week, with 150 already deducted. -/
def budgetB1 : Budget :=
  { id := "b1", store := ["s1"], storeId := "s1", weekStart := 0, weekEnd := 6
    kitchenWeekly := 500, barWeekly := 0, weeklyBudgetAmount := 500
    foodCostDeducted := 150, remainingBudget := 350, status := "Locked"
    originalAmount := none, originalAlt := none
    lockedBy := none, lockedAt := none, lastUpdatedAt := "" }

/-- A small locked weekly budget with only 10 remaining. -/
def budgetB2 : Budget :=
  { budgetB1 with
    id := "b2", kitchenWeekly := 10, barWeekly := 0, weeklyBudgetAmount := 10
    foodCostDeducted := 0, remainingBudget := 10 }

/-- A draft weekly budget for `s1`. -/
def budgetDraft : Budget :=
  { budgetB1 with
    id := "b3", status := "Draft", kitchenWeekly := 200, barWeekly := 0
    weeklyBudgetAmount := 200, foodCostDeducted := 0, remainingBudget := 200 }

/-- A verified closing with food spend 100 and no anchor yet. -/
def closingV : Closing :=
  { closingR1 with id := "r3", verifiedStatus := "Verified", barBudget := some 0 }

def exampleDB : DB := { closings := [closingR1], budgets := [], stores := [storeAlpha] }

def exampleDB2 : DB := { closings := [closingR2], budgets := [budgetB1], stores := [storeAlpha] }

def exampleDB3 : DB := { closings := [closingR1], budgets := [budgetB2], stores := [storeAlpha] }

def exampleDB4 : DB := { closings := [closingV], budgets := [budgetDraft], stores := [storeAlpha] }

/-- An existing closing in `Needs Update` state. -/
def closingNU : Closing :=
  { closingR1 with id := "r4", verifiedStatus := "Needs Update", foodCostDeducted := 77 }

def exampleDB5 : DB := { closings := [closingNU], budgets := [], stores := [storeAlpha] }

/-- An unlocked stored closing whose payments already balance exactly. -/
def closingC6 : Closing :=
  { emptyClosing with
    id := "r6", date := 1, lockStatus := "Unlocked"
    totalSales := some 100, netSales := some 90, cashPayments := some 100 }

def exampleDB6 : DB := { closings := [closingC6], budgets := [], stores := [] }

/-- The merged stored-plus-patch view for patching `closingC6` with
`Card Payments := 0`: its payments sum equals `Total Sales` exactly. -/
def mergedC6 : MergedView :=
  { totalSales := some 100, netSales := some 90, cashPayments := some 100
    cardPayments := some 0, digitalPayments := none, grabPayments := none
    voucherPayments := none, bankTransfer := none, marketingExpenses := none
    actualCash := none, cashFloat := none, kitchenBudget := none
    barBudget := none, nonFoodBudget := none, staffMealBudget := none
    cashForDeposit := none }

/-- Verified closings with spends 100, 50 and 0, plus an unverified one. -/
def closingV2 : Closing := { closingV with id := "r8", kitchenBudget := some 50 }

def closingV3 : Closing := { closingV with id := "r9", kitchenBudget := some 0 }

def closingU : Closing :=
  { closingV with id := "r10", verifiedStatus := "Pending", kitchenBudget := some 999 }

def exampleDB7 : DB :=
  { closings := [closingV, closingV2, closingV3, closingU]
    budgets := [budgetDraft], stores := [storeAlpha] }

/-- A submission whose payments differ from `Total Sales` by exactly 1. -/
def payloadTol1 : ClosingCreate :=
  { business_date := 1, store_id := some "s1", store := none
    total_sales := some 100, net_sales := some 90
    cash_payments := some 101, card_payments := none, digital_payments := none
    grab_payments := none, bank_transfer_payments := none, voucher_payments := none
    marketing_expenses := none, actual_cash_counted := none, cash_float := none
    kitchen_budget := none, bar_budget := none, non_food_budget := none
    staff_meal_budget := none, tenant_id := none, submitted_by := some "u" }

/-- The same submission with a payments difference of 1.01. -/
def payloadTol101 : ClosingCreate :=
  { payloadTol1 with cash_payments := some (101 + 1/100) }

/-- A fully consistent submission for store `s1`. -/
def payloadOk : ClosingCreate :=
  { payloadTol1 with business_date := 2, cash_payments := some 100 }

end RestOps

namespace RestOps

/-! General lemmas about the record-store model. -/

theorem updateClosing_budgets (db : DB) (rid : String) (f : Closing → Closing) :
    (updateClosing db rid f).budgets = db.budgets := rfl

theorem updateClosing_stores (db : DB) (rid : String) (f : Closing → Closing) :
    (updateClosing db rid f).stores = db.stores := rfl

theorem updateBudget_closings (db : DB) (bid : String) (f : Budget → Budget) :
    (updateBudget db bid f).closings = db.closings := rfl

theorem getClosing_updateBudget (db : DB) (bid : String) (f : Budget → Budget) (rid : String) :
    getClosing (updateBudget db bid f) rid = getClosing db rid := rfl

/-- Reading a record back after updating it yields the updated record,
provided the update does not change ids. -/
theorem getClosing_updateClosing_self (db : DB) (rid : String) (f : Closing → Closing)
    (hf : ∀ c, (f c).id = c.id) (c : Closing) (hget : getClosing db rid = some c) :
    getClosing (updateClosing db rid f) rid = some (f c) := by
  have hget' : db.closings.find? (fun x => x.id == rid) = some c := hget
  have hc : (c.id == rid) = true := by simpa using List.find?_some hget'
  show (db.closings.map fun x => if x.id == rid then f x else x).find?
      (fun x => x.id == rid) = some (f c)
  rw [List.find?_map]
  have hpg : ((fun x : Closing => x.id == rid) ∘ fun x => if x.id == rid then f x else x)
      = fun x : Closing => x.id == rid := by
    funext x
    by_cases h : (x.id == rid) = true
    · simp [Function.comp, h, hf]
    · simp [Function.comp, h]
  rw [hpg]
  rw [show db.closings.find? (fun x => x.id == rid) = some c from hget]
  have hceq : c.id = rid := by simpa using hc
  simp [hceq]

theorem getBudget_updateBudget_self (db : DB) (bid : String) (f : Budget → Budget)
    (hf : ∀ b, (f b).id = b.id) (b : Budget) (hget : getBudget db bid = some b) :
    getBudget (updateBudget db bid f) bid = some (f b) := by
  have hget' : db.budgets.find? (fun x => x.id == bid) = some b := hget
  have hb : (b.id == bid) = true := by simpa using List.find?_some hget'
  show (db.budgets.map fun x => if x.id == bid then f x else x).find?
      (fun x => x.id == bid) = some (f b)
  rw [List.find?_map]
  have hpg : ((fun x : Budget => x.id == bid) ∘ fun x => if x.id == bid then f x else x)
      = fun x : Budget => x.id == bid := by
    funext x
    by_cases h : (x.id == bid) = true
    · simp [Function.comp, h, hf]
    · simp [Function.comp, h]
  rw [hpg]
  rw [show db.budgets.find? (fun x => x.id == bid) = some b from hget]
  have hbeq : b.id = bid := by simpa using hb
  simp [hbeq]

/-- The weekly-budget lookup ignores the Daily Closings table, so status
writes to a closing do not affect it. -/
theorem get_locked_updateClosing (db : DB) (rid : String) (f : Closing → Closing)
    (c : Closing) :
    get_locked_weekly_budget_record (updateClosing db rid f) c =
      get_locked_weekly_budget_record db c := rfl

/-- The lookup only inspects a closing's `Store` and `Date` fields. -/
theorem get_locked_congr (db : DB) (c₁ c₂ : Closing)
    (hs : c₁.store = c₂.store) (hd : c₁.date = c₂.date) :
    get_locked_weekly_budget_record db c₁ = get_locked_weekly_budget_record db c₂ := by
  unfold get_locked_weekly_budget_record
  rw [hs, hd]

/-- The verification status write leaves the lookup-relevant fields of a
closing unchanged. -/
theorem get_locked_verify_status_update (db : DB) (st vby notes now : String) (c : Closing) :
    get_locked_weekly_budget_record db (verify_status_update st vby notes now c) =
      get_locked_weekly_budget_record db c := rfl

theorem food_spend_verify_status_update (st vby notes now : String) (c : Closing) :
    food_spend_from_fields (verify_status_update st vby notes now c) =
      food_spend_from_fields c := rfl

theorem verify_status_update_id (st vby notes now : String) (c : Closing) :
    (verify_status_update st vby notes now c).id = c.id := rfl

theorem set_food_cost_deducted_id (v : Money) (c : Closing) :
    (set_food_cost_deducted v c).id = c.id := rfl

theorem resolve_updateBudget (db : DB) (bid : String) (g : Budget → Budget) :
    resolve_store_display_name (updateBudget db bid g) = resolve_store_display_name db := rfl

theorem locked_pred_updateBudget (db : DB) (bid : String) (g : Budget → Budget) :
    locked_budget_pred (updateBudget db bid g) = locked_budget_pred db := rfl

theorem budgets_updateBudget (db : DB) (bid : String) (g : Budget → Budget) :
    (updateBudget db bid g).budgets =
      db.budgets.map (fun b => if b.id == bid then g b else b) := rfl

/-- A weekly-budget update that changes neither `Store`, `Week Start` nor
`Status` commutes with the locked-budget lookup. -/
theorem get_locked_updateBudget (db : DB) (bid : String) (g : Budget → Budget)
    (hs : ∀ b, (g b).store = b.store) (hw : ∀ b, (g b).weekStart = b.weekStart)
    (hst : ∀ b, (g b).status = b.status) (c : Closing) :
    get_locked_weekly_budget_record (updateBudget db bid g) c =
      (get_locked_weekly_budget_record db c).map (fun b => if b.id == bid then g b else b) := by
  unfold get_locked_weekly_budget_record
  cases hsf : storeFieldFirst c.store with
  | none => rfl
  | some sid =>
    simp only [Option.some_bind]
    rw [resolve_updateBudget, locked_pred_updateBudget, budgets_updateBudget,
      List.find?_map]
    have hpg : (locked_budget_pred db
          (if resolve_store_display_name db sid = "" then sid
           else resolve_store_display_name db sid)
          (monday_of_week c.date)
        ∘ fun x : Budget => if x.id == bid then g x else x)
        = locked_budget_pred db
            (if resolve_store_display_name db sid = "" then sid
             else resolve_store_display_name db sid)
            (monday_of_week c.date) := by
      funext x
      by_cases h : (x.id == bid) = true
      · simp only [Function.comp_apply, if_pos h]
        unfold locked_budget_pred budgetStoreJoin
        rw [hs, hw, hst]
      · simp [Function.comp, h]
    rw [hpg]

theorem verify_status_update_foodCost (st vby notes now : String) (c : Closing) :
    (verify_status_update st vby notes now c).foodCostDeducted = c.foodCostDeducted := rfl

theorem getBudget_updateClosing (db : DB) (rid : String) (f : Closing → Closing)
    (bid : String) : getBudget (updateClosing db rid f) bid = getBudget db bid := rfl

/-- Characterization of `verify_closing` with status `Verified` on an
existing record: after the status write, the outcome is determined by the
weekly-budget lookup and the food-spend delta. -/
theorem verify_closing_verified_eq (db : DB) (rid vby notes now : String) (c : Closing)
    (hrid : rid ≠ "") (hget : getClosing db rid = some c) :
    verify_closing db rid "Verified" vby notes now =
      (match get_locked_weekly_budget_record db
          (verify_status_update "Verified" vby notes now c) with
       | none =>
         (updateClosing db rid (verify_status_update "Verified" vby notes now), .ok none)
       | some b =>
         if food_spend_from_fields c - c.foodCostDeducted = 0 then
           (updateClosing db rid (verify_status_update "Verified" vby notes now), .ok none)
         else
           (updateClosing
             (updateBudget (updateClosing db rid (verify_status_update "Verified" vby notes now))
               b.id (budget_apply_delta b.remainingBudget b.foodCostDeducted
                 (food_spend_from_fields c - c.foodCostDeducted) now))
             rid (set_food_cost_deducted (food_spend_from_fields c)),
          .ok (some ⟨rid, "Verified", notes⟩))) := by
  simp only [verify_closing]
  rw [if_neg (show ¬ (rid = "" ∨ ("Verified" : String) = "") from
    fun h => h.elim hrid (by decide))]
  simp only [hget]
  rw [getClosing_updateClosing_self db rid (verify_status_update "Verified" vby notes now)
    (verify_status_update_id "Verified" vby notes now) c hget]
  simp only [Option.getD_some, if_pos rfl, if_true, get_locked_updateClosing,
    food_spend_verify_status_update, verify_status_update_foodCost]

/-- Characterization of `verify_closing` with a non-`Verified` status on an
existing record: the reversal fires exactly when the record was `Verified`
with a positive anchor, using the before-update snapshot for the lookup. -/
theorem verify_closing_unverify_eq (db : DB) (rid st vby notes now : String) (c : Closing)
    (hrid : rid ≠ "") (hst : st ≠ "") (hstv : st ≠ "Verified")
    (hget : getClosing db rid = some c) :
    verify_closing db rid st vby notes now =
      (if c.verifiedStatus.trim = "Verified" ∧ 0 < c.foodCostDeducted then
        (updateClosing
          (match get_locked_weekly_budget_record db c with
           | some b =>
             updateBudget (updateClosing db rid (verify_status_update st vby notes now))
               b.id (budget_reverse b.remainingBudget b.foodCostDeducted
                 c.foodCostDeducted now)
           | none => updateClosing db rid (verify_status_update st vby notes now))
          rid (set_food_cost_deducted 0),
         .ok (some ⟨rid, st, notes⟩))
      else
        (updateClosing db rid (verify_status_update st vby notes now),
         .ok (some ⟨rid, st, notes⟩))) := by
  simp only [verify_closing]
  rw [if_neg (show ¬ (rid = "" ∨ st = "") from fun h => h.elim hrid hst)]
  simp only [hget]
  rw [getClosing_updateClosing_self db rid (verify_status_update st vby notes now)
    (verify_status_update_id st vby notes now) c hget]
  simp only [Option.getD_some, if_neg hstv, get_locked_updateClosing,
    verify_status_update_foodCost]

/-- Re-verifying a closing whose anchor already equals its current food
spend never writes the weekly budget (delta-0 guard or missing budget). -/
theorem verify_verified_budgets_unchanged (db : DB) (rid vby notes now : String)
    (c : Closing) (hrid : rid ≠ "") (hget : getClosing db rid = some c)
    (hanchor : c.foodCostDeducted = food_spend_from_fields c) :
    ((verify_closing db rid "Verified" vby notes now).1).budgets = db.budgets := by
  rw [verify_closing_verified_eq db rid vby notes now c hrid hget]
  cases hl : get_locked_weekly_budget_record db
      (verify_status_update "Verified" vby notes now c) with
  | none => rfl
  | some b =>
    have h0 : food_spend_from_fields c - c.foodCostDeducted = 0 := by
      rw [hanchor, sub_self]
    simp only [h0, eq_self_iff_true, if_true]
    rfl

/-- Characterization of a lock request that reaches the write path: the
budget is found, is not already locked, and all input checks pass. -/
theorem lock_weekly_budget_not_locked (db : DB) (budget_id store_id : Option String)
    (ws : Nat) (pk pb : Option Money) (locked_by now : String) (record : Budget)
    (hbs : ¬ (budget_id.isNone ∧ store_id.isNone))
    (hws : ws % 7 = 0)
    (hrec : lock_find_record db budget_id store_id ws = some record)
    (hnl : ¬ record.status.toLower = "locked") :
    lock_weekly_budget db budget_id store_id (some ws) pk pb locked_by now =
      (updateBudget db record.id
        (lock_budget_update record (pk.getD record.kitchenWeekly) (pb.getD record.barWeekly)
          (pk.getD record.kitchenWeekly + pb.getD record.barWeekly)
          (verified_food_spend_sum db (lock_store_id_str store_id) ws)
          (max 0 (pk.getD record.kitchenWeekly + pb.getD record.barWeekly -
            verified_food_spend_sum db (lock_store_id_str store_id) ws))
          locked_by now),
       .ok ⟨"locked", record.id,
            pk.getD record.kitchenWeekly + pb.getD record.barWeekly,
            verified_food_spend_sum db (lock_store_id_str store_id) ws,
            max 0 (pk.getD record.kitchenWeekly + pb.getD record.barWeekly -
              verified_food_spend_sum db (lock_store_id_str store_id) ws)⟩) := by
  simp only [lock_weekly_budget]
  rw [if_neg hbs, if_neg (show ¬ ws % 7 ≠ 0 from fun hn => hn hws)]
  simp only [hrec]
  rw [if_neg hnl]

/-- Characterization of an already-locked lock request: no write, current
numbers returned. -/
theorem lock_weekly_budget_already_locked (db : DB) (budget_id store_id : Option String)
    (ws : Nat) (pk pb : Option Money) (locked_by now : String) (record : Budget)
    (hbs : ¬ (budget_id.isNone ∧ store_id.isNone))
    (hws : ws % 7 = 0)
    (hrec : lock_find_record db budget_id store_id ws = some record)
    (hl : record.status.toLower = "locked") :
    lock_weekly_budget db budget_id store_id (some ws) pk pb locked_by now =
      (db, .ok ⟨"already_locked", record.id, record.weeklyBudgetAmount,
                record.foodCostDeducted, record.remainingBudget⟩) := by
  simp only [lock_weekly_budget]
  rw [if_neg hbs, if_neg (show ¬ ws % 7 ≠ 0 from fun hn => hn hws)]
  simp only [hrec]
  rw [if_pos hl]

/-! C1: delta reconciliation on verification. -/

/-- C1: verifying an existing closing with status `Verified` against an
existing Locked weekly budget applies exactly the delta
`new_food_spend − stored anchor` (decrementing the budget's remaining by it,
incrementing its running deduction by it, and re-anchoring the closing at
its latest food spend); when the delta is 0 the weekly budget record is not
written at all; and re-verifying immediately after a verification leaves the
budget table untouched, so an edited and re-verified closing only ever
contributes its latest food spend. -/
theorem claim_C1_delta_reconciliation (db : DB) (rid vby notes now : String)
    (c : Closing) (b : Budget)
    (hrid : rid ≠ "")
    (hget : getClosing db rid = some c)
    (hlookup : get_locked_weekly_budget_record db
        (verify_status_update "Verified" vby notes now c) = some b) :
    (food_spend_from_fields c - c.foodCostDeducted ≠ 0 →
      verify_closing db rid "Verified" vby notes now =
        (updateClosing
          (updateBudget (updateClosing db rid (verify_status_update "Verified" vby notes now))
            b.id (budget_apply_delta b.remainingBudget b.foodCostDeducted
              (food_spend_from_fields c - c.foodCostDeducted) now))
          rid (set_food_cost_deducted (food_spend_from_fields c)),
         .ok (some ⟨rid, "Verified", notes⟩)))
    ∧ (food_spend_from_fields c - c.foodCostDeducted = 0 →
      verify_closing db rid "Verified" vby notes now =
        (updateClosing db rid (verify_status_update "Verified" vby notes now), .ok none)
      ∧ ((verify_closing db rid "Verified" vby notes now).1).budgets = db.budgets)
    ∧ (∀ now2, ((verify_closing (verify_closing db rid "Verified" vby notes now).1
          rid "Verified" vby notes now2).1).budgets
        = ((verify_closing db rid "Verified" vby notes now).1).budgets) := by
  refine ⟨?_, ?_, ?_⟩
  · intro hdelta
    rw [verify_closing_verified_eq db rid vby notes now c hrid hget, hlookup]
    simp only [if_neg hdelta]
  · intro hdelta
    have heq : verify_closing db rid "Verified" vby notes now =
        (updateClosing db rid (verify_status_update "Verified" vby notes now), .ok none) := by
      rw [verify_closing_verified_eq db rid vby notes now c hrid hget, hlookup]
      simp only [hdelta, eq_self_iff_true, if_true]
    exact ⟨heq, by rw [heq]; rfl⟩
  · intro now2
    by_cases hdelta : food_spend_from_fields c - c.foodCostDeducted = 0
    · have hR : (verify_closing db rid "Verified" vby notes now).1
          = updateClosing db rid (verify_status_update "Verified" vby notes now) := by
        rw [verify_closing_verified_eq db rid vby notes now c hrid hget, hlookup]
        simp only [hdelta, eq_self_iff_true, if_true]
      rw [hR]
      have hget1 : getClosing
          (updateClosing db rid (verify_status_update "Verified" vby notes now)) rid
          = some (verify_status_update "Verified" vby notes now c) :=
        getClosing_updateClosing_self db rid _ (verify_status_update_id _ _ _ _) c hget
      exact verify_verified_budgets_unchanged _ rid vby notes now2 _ hrid hget1
        ((sub_eq_zero.mp hdelta).symm)
    · have hR : (verify_closing db rid "Verified" vby notes now).1
          = updateClosing
              (updateBudget (updateClosing db rid (verify_status_update "Verified" vby notes now))
                b.id (budget_apply_delta b.remainingBudget b.foodCostDeducted
                  (food_spend_from_fields c - c.foodCostDeducted) now))
              rid (set_food_cost_deducted (food_spend_from_fields c)) := by
        rw [verify_closing_verified_eq db rid vby notes now c hrid hget, hlookup]
        simp only [if_neg hdelta]
      rw [hR]
      have hget1 : getClosing
          (updateClosing db rid (verify_status_update "Verified" vby notes now)) rid
          = some (verify_status_update "Verified" vby notes now c) :=
        getClosing_updateClosing_self db rid _ (verify_status_update_id _ _ _ _) c hget
      have hget2 : getClosing
          (updateBudget (updateClosing db rid (verify_status_update "Verified" vby notes now))
            b.id (budget_apply_delta b.remainingBudget b.foodCostDeducted
              (food_spend_from_fields c - c.foodCostDeducted) now)) rid
          = some (verify_status_update "Verified" vby notes now c) := hget1
      have hget3 : getClosing
          (updateClosing
            (updateBudget (updateClosing db rid (verify_status_update "Verified" vby notes now))
              b.id (budget_apply_delta b.remainingBudget b.foodCostDeducted
                (food_spend_from_fields c - c.foodCostDeducted) now))
            rid (set_food_cost_deducted (food_spend_from_fields c))) rid
          = some (set_food_cost_deducted (food_spend_from_fields c)
              (verify_status_update "Verified" vby notes now c)) :=
        getClosing_updateClosing_self _ rid _ (set_food_cost_deducted_id _) _ hget2
      exact verify_verified_budgets_unchanged _ rid vby notes now2 _ hrid hget3 rfl

/-- Witness for C1: after verifying the closing of `exampleDB3` (delta 150),
a second verification leaves the weekly-budget table unchanged. -/
theorem claim_C1_witness :
    ((verify_closing (verify_closing exampleDB3 "r1" "Verified" "mgr" "" "t7").1
        "r1" "Verified" "mgr" "" "t8").1).budgets
      = ((verify_closing exampleDB3 "r1" "Verified" "mgr" "" "t7").1).budgets :=
  (claim_C1_delta_reconciliation exampleDB3 "r1" "mgr" "" "t7" closingR1 budgetB2
    (by decide) (by with_unfolding_all decide) (by with_unfolding_all decide)).2.2 "t8"

/-! C2: reversal of a previously verified closing. -/

/-- C2: verifying a previously-`Verified` closing with a positive anchor
under any non-`Verified` status locates the Locked weekly budget from the
before-update snapshot, adds the anchor back to the budget's remaining
budget, floors the budget's running deduction at 0, and zeroes the closing's
own anchor. -/
theorem claim_C2_reversal (db : DB) (rid st vby notes now : String)
    (c : Closing) (b : Budget)
    (hrid : rid ≠ "") (hst : st ≠ "") (hstv : st ≠ "Verified")
    (hget : getClosing db rid = some c)
    (hprev : c.verifiedStatus.trim = "Verified")
    (hanchor : 0 < c.foodCostDeducted)
    (hlookup : get_locked_weekly_budget_record db c = some b) :
    verify_closing db rid st vby notes now =
      (updateClosing
        (updateBudget (updateClosing db rid (verify_status_update st vby notes now))
          b.id (budget_reverse b.remainingBudget b.foodCostDeducted c.foodCostDeducted now))
        rid (set_food_cost_deducted 0),
       .ok (some ⟨rid, st, notes⟩))
    ∧ (getClosing (verify_closing db rid st vby notes now).1 rid).map
        (fun x => x.foodCostDeducted) = some 0
    ∧ (getBudget db b.id = some b →
        (getBudget (verify_closing db rid st vby notes now).1 b.id).map
          (fun x => (x.remainingBudget, x.foodCostDeducted))
          = some (b.remainingBudget + c.foodCostDeducted,
                  max 0 (b.foodCostDeducted - c.foodCostDeducted))) := by
  have heq : verify_closing db rid st vby notes now =
      (updateClosing
        (updateBudget (updateClosing db rid (verify_status_update st vby notes now))
          b.id (budget_reverse b.remainingBudget b.foodCostDeducted c.foodCostDeducted now))
        rid (set_food_cost_deducted 0),
       .ok (some ⟨rid, st, notes⟩)) := by
    rw [verify_closing_unverify_eq db rid st vby notes now c hrid hst hstv hget,
      if_pos ⟨hprev, hanchor⟩, hlookup]
  refine ⟨heq, ?_, ?_⟩
  · rw [heq]
    have hget1 : getClosing
        (updateClosing db rid (verify_status_update st vby notes now)) rid
        = some (verify_status_update st vby notes now c) :=
      getClosing_updateClosing_self db rid _ (verify_status_update_id _ _ _ _) c hget
    have hget2 : getClosing
        (updateBudget (updateClosing db rid (verify_status_update st vby notes now))
          b.id (budget_reverse b.remainingBudget b.foodCostDeducted c.foodCostDeducted now))
        rid = some (verify_status_update st vby notes now c) := hget1
    rw [getClosing_updateClosing_self _ rid _ (set_food_cost_deducted_id _) _ hget2]
    rfl
  · intro hgb
    rw [heq]
    have hgb1 : getBudget
        (updateClosing db rid (verify_status_update st vby notes now)) b.id = some b := hgb
    rw [show getBudget
        (updateClosing
          (updateBudget (updateClosing db rid (verify_status_update st vby notes now))
            b.id (budget_reverse b.remainingBudget b.foodCostDeducted c.foodCostDeducted now))
          rid (set_food_cost_deducted 0)) b.id
      = getBudget
          (updateBudget (updateClosing db rid (verify_status_update st vby notes now))
            b.id (budget_reverse b.remainingBudget b.foodCostDeducted c.foodCostDeducted now))
          b.id from rfl]
    rw [getBudget_updateBudget_self _ b.id
      (budget_reverse b.remainingBudget b.foodCostDeducted c.foodCostDeducted now)
      (fun x => rfl) b hgb1]
    rfl

/-- Witness for C2: reversing the verified closing of `exampleDB2` restores
the budget's numbers, and a concrete verify-then-reverse cycle on
`exampleDB3` restores the budget exactly to its pre-verification state. -/
theorem claim_C2_witness :
    ((getBudget (verify_closing exampleDB2 "r2" "Needs Update" "mgr" "" "t9").1 "b1").map
        (fun x => (x.remainingBudget, x.foodCostDeducted))
      = some (budgetB1.remainingBudget + closingR2.foodCostDeducted,
              max 0 (budgetB1.foodCostDeducted - closingR2.foodCostDeducted)))
    ∧ (getBudget (verify_closing (verify_closing exampleDB3 "r1" "Verified" "mgr" "" "ta").1
          "r1" "Needs Update" "mgr" "" "tb").1 "b2").map
        (fun x => (x.remainingBudget, x.foodCostDeducted))
      = some (budgetB2.remainingBudget, budgetB2.foodCostDeducted) :=
  ⟨(claim_C2_reversal exampleDB2 "r2" "Needs Update" "mgr" "" "t9" closingR2 budgetB1
      (by decide) (by decide) (by decide) (by with_unfolding_all decide)
      (by with_unfolding_all decide) (by with_unfolding_all decide)
      (by with_unfolding_all decide)).2.2 (by with_unfolding_all decide),
   by with_unfolding_all decide⟩

/-! C3: the weekly-budget lock recompute. -/

/-- C3 counterexample: locking by `budget_id` alone (a request style the
endpoint explicitly supports, src/main.py:593) leaves `store_id = None`, so
the recompute formula filters closings on `{Store ID}='None'`
(src/main.py:691) and sums none of the store's closings: on `exampleDB4`
the locked budget records `food_cost_deducted = 0` although the store has a
Verified closing of that week with food spend 100. -/
theorem claim_C3_counterexample :
    (getBudget (lock_weekly_budget exampleDB4 (some "b3") none (some 0) none none
        "mgr" "tc").1 "b3").map (fun x => x.foodCostDeducted) = some 0
    ∧ verified_food_spend_sum exampleDB4 "s1" 0 = 100
    ∧ closingV.verifiedStatus = "Verified" ∧ closingV.storeId = "s1"
    ∧ monday_of_week closingV.date = 0
    ∧ (0 : Money) ≠ 100 := by
  refine ⟨?_, ?_, ?_, ?_, ?_, ?_⟩ <;> with_unfolding_all decide

/-- C3 (amended): for lock requests that supply `store_id`, the lock
postcondition holds as claimed — `food_cost_deducted` is recomputed as the
food-spend sum over exactly that store's Verified closings of the
Monday-to-Sunday week, `remaining_budget = max(0, total − sum)`,
`status = Locked`, a present non-zero original amount is preserved, a
present zero/empty one is stamped with the total, a missing original column
is never created, and locking an already-Locked budget returns the current
state without writing. -/
theorem claim_C3_amended_lock_postcondition (db : DB) (store_id : String)
    (budget_id : Option String) (ws : Nat) (pk pb : Option Money)
    (locked_by now : String) (record : Budget)
    (hws : ws % 7 = 0)
    (hrec : lock_find_record db budget_id (some store_id) ws = some record) :
    (record.status.toLower = "locked" →
      lock_weekly_budget db budget_id (some store_id) (some ws) pk pb locked_by now
        = (db, .ok ⟨"already_locked", record.id, record.weeklyBudgetAmount,
                    record.foodCostDeducted, record.remainingBudget⟩))
    ∧ (¬ record.status.toLower = "locked" → getBudget db record.id = some record →
      (getBudget (lock_weekly_budget db budget_id (some store_id) (some ws) pk pb
          locked_by now).1 record.id).map
        (fun x => (x.foodCostDeducted, x.remainingBudget, x.status))
        = some (verified_food_spend_sum db store_id ws,
                max 0 (pk.getD record.kitchenWeekly + pb.getD record.barWeekly
                  - verified_food_spend_sum db store_id ws),
                "Locked"))
    ∧ (∀ (k bar total spent remaining : Money) (lb n2 : String) (v : Money), v ≠ 0 →
        record.originalAmount = some v →
        (lock_budget_update record k bar total spent remaining lb n2 record).originalAmount
          = some v)
    ∧ (∀ (k bar total spent remaining : Money) (lb n2 : String),
        record.originalAmount = some 0 →
        (lock_budget_update record k bar total spent remaining lb n2 record).originalAmount
          = some total)
    ∧ (∀ (k bar total spent remaining : Money) (lb n2 : String),
        record.originalAmount = none →
        (lock_budget_update record k bar total spent remaining lb n2 record).originalAmount
          = none) := by
  have hbs : ¬ (budget_id.isNone ∧ (some store_id).isNone) := by simp
  refine ⟨?_, ?_, ?_, ?_, ?_⟩
  · intro hl
    exact lock_weekly_budget_already_locked db budget_id (some store_id) ws pk pb
      locked_by now record hbs hws hrec hl
  · intro hnl hgb
    simp only [lock_weekly_budget_not_locked db budget_id (some store_id) ws pk pb
      locked_by now record hbs hws hrec hnl]
    rw [getBudget_updateBudget_self db record.id
      (lock_budget_update record (pk.getD record.kitchenWeekly) (pb.getD record.barWeekly)
        (pk.getD record.kitchenWeekly + pb.getD record.barWeekly)
        (verified_food_spend_sum db (lock_store_id_str (some store_id)) ws)
        (max 0 (pk.getD record.kitchenWeekly + pb.getD record.barWeekly -
          verified_food_spend_sum db (lock_store_id_str (some store_id)) ws))
        locked_by now)
      (fun x => rfl) record hgb]
    rfl
  · intro k bar total spent remaining lb n2 v hv ho
    unfold lock_budget_update
    rw [ho]
    simp [hv]
  · intro k bar total spent remaining lb n2 ho
    unfold lock_budget_update
    rw [ho]
    simp
  · intro k bar total spent remaining lb n2 ho
    unfold lock_budget_update
    rw [ho]

/-- Witness for C3: an already-locked budget is returned unchanged, and a
fresh lock on `exampleDB7` (verified spends 100, 50, 0 and one unverified
closing skipped) records a deduction of exactly 150. -/
theorem claim_C3_witness :
    (lock_weekly_budget exampleDB2 none (some "s1") (some 0) none none "mgr" "td"
      = (exampleDB2, .ok ⟨"already_locked", budgetB1.id, budgetB1.weeklyBudgetAmount,
          budgetB1.foodCostDeducted, budgetB1.remainingBudget⟩))
    ∧ ((getBudget (lock_weekly_budget exampleDB7 none (some "s1") (some 0) none none
        "mgr" "te").1 budgetDraft.id).map
          (fun x => (x.foodCostDeducted, x.remainingBudget, x.status))
        = some (verified_food_spend_sum exampleDB7 "s1" 0,
                max 0 ((none : Option Money).getD budgetDraft.kitchenWeekly
                  + (none : Option Money).getD budgetDraft.barWeekly
                  - verified_food_spend_sum exampleDB7 "s1" 0),
                "Locked"))
    ∧ verified_food_spend_sum exampleDB7 "s1" 0 = 150 :=
  ⟨(claim_C3_amended_lock_postcondition exampleDB2 "s1" none 0 none none "mgr" "td"
      budgetB1 (by decide) (by with_unfolding_all decide)).1
      (by with_unfolding_all decide),
   (claim_C3_amended_lock_postcondition exampleDB7 "s1" none 0 none none "mgr" "te"
      budgetDraft (by decide) (by with_unfolding_all decide)).2.1
      (by with_unfolding_all decide) (by with_unfolding_all decide),
   by with_unfolding_all decide⟩

/-! C5: the PATCH endpoint is dead on arrival. -/

/-- C5: for every non-empty patch payload and every record id,
`patch_closing` raises a `NameError` on the undefined name `FORMULA_FIELDS`
(src/main.py:1861), surfaced as HTTP 500 before the record is ever read, so
no PatchClosing call can reach the lock check, merged validation, write, or
history append, and the stored record is never modified by a patch. -/
theorem claim_C5_patch_always_fails (db : DB) (record_id : String)
    (updates : List (String × Money)) (h : updates ≠ []) :
    patch_closing db record_id updates = (db, .error 500) := by
  unfold patch_closing
  cases updates with
  | nil => exact absurd rfl h
  | cons u t => rfl

/-- Witness for C5 at a concrete store state and payload. -/
theorem claim_C5_witness :
    patch_closing exampleDB6 "r6" [("Cash Payments", 5)] = (exampleDB6, .error 500) :=
  claim_C5_patch_always_fails exampleDB6 "r6" [("Cash Payments", 5)] (by decide)

/-! C8: the shape of the verification response. -/

/-- C8: the claim states every VerifyClosing call that supplies `record_id`
and `status` returns a result containing the record id and the new status,
also when no Locked weekly budget exists for the closing's week and when the
food-spend delta is zero. The code instead executes a bare `return`
(src/main.py:2316 and 2326) in exactly those two cases, so the endpoint
responds with a null body carrying neither `record_id` nor `new_status`:
on `exampleDB` (no weekly budget at all) and on `exampleDB2` (budget found
but the anchor already equals the food spend, delta 0) the verification
still updates the record, yet the call returns `none` instead of a
`VerifyResult`. -/
theorem claim_C8_null_response :
    (verify_closing exampleDB "r1" "Verified" "mgr" "" "t1").2 = Except.ok none
    ∧ (verify_closing exampleDB2 "r2" "Verified" "mgr" "" "t1").2 = Except.ok none
    ∧ (getClosing (verify_closing exampleDB "r1" "Verified" "mgr" "" "t1").1 "r1").map
        (fun c => c.verifiedStatus) = some "Verified" := by
  refine ⟨?_, ?_, ?_⟩ <;> with_unfolding_all decide

/-! C10: the constant-time PIN comparison and the unlock gate. -/

theorem nat_or_eq_zero_iff (a b : Nat) : (a ||| b) = 0 ↔ a = 0 ∧ b = 0 := by
  constructor
  · intro h
    have hbit : ∀ i, (a.testBit i || b.testBit i) = false := by
      intro i
      have := congrArg (fun n => n.testBit i) h
      simpa [Nat.testBit_or] using this
    constructor
    · refine Nat.eq_of_testBit_eq fun i => ?_
      have := hbit i
      simp only [Bool.or_eq_false_iff] at this
      simp [this.1, Nat.zero_testBit]
    · refine Nat.eq_of_testBit_eq fun i => ?_
      have := hbit i
      simp only [Bool.or_eq_false_iff] at this
      simp [this.2, Nat.zero_testBit]
  · rintro ⟨rfl, rfl⟩
    simp

theorem foldl_or_eq_zero_iff (l : List Nat) (acc : Nat) :
    l.foldl (fun result v => result ||| v) acc = 0 ↔ acc = 0 ∧ ∀ x ∈ l, x = 0 := by
  induction l generalizing acc with
  | nil => simp
  | cons a t ih =>
    simp only [List.foldl_cons, ih, nat_or_eq_zero_iff, List.mem_cons]
    constructor
    · rintro ⟨⟨h1, h2⟩, h3⟩
      exact ⟨h1, fun x hx => hx.elim (fun hxa => hxa ▸ h2) (h3 x)⟩
    · rintro ⟨h1, h2⟩
      exact ⟨⟨h1, h2 a (Or.inl rfl)⟩, fun x hx => h2 x (Or.inr hx)⟩

theorem zipWith_xor_all_zero_iff (as : List Char) :
    ∀ bs : List Char, as.length = bs.length →
      ((∀ x ∈ List.zipWith (fun x y => x.toNat ^^^ y.toNat) as bs, x = 0) ↔ as = bs) := by
  induction as with
  | nil =>
    intro bs hlen
    cases bs with
    | nil => simp
    | cons b s => simp at hlen
  | cons a t ih =>
    intro bs hlen
    cases bs with
    | nil => simp at hlen
    | cons b s =>
      have hl : t.length = s.length := by simpa using hlen
      simp only [List.zipWith_cons_cons, List.mem_cons, List.cons.injEq]
      constructor
      · intro h
        have hx : a.toNat ^^^ b.toNat = 0 := h _ (Or.inl rfl)
        have hab : a = b := by
          have hn := Nat.xor_eq_zero.mp hx
          have h2 := congrArg Char.ofNat hn
          simpa [Char.ofNat_toNat] using h2
        exact ⟨hab, (ih s hl).mp fun x hx2 => h x (Or.inr hx2)⟩
      · rintro ⟨rfl, rfl⟩
        intro x hx
        rcases hx with h | h
        · rw [h]
          exact Nat.xor_self _
        · exact (ih t rfl).mpr rfl x h

theorem constant_time_equal_iff (a b : String) :
    constant_time_equal a b = true ↔ a = b := by
  unfold constant_time_equal
  by_cases h : a.length = b.length
  · have hlen : a.toList.length = b.toList.length := h
    rw [if_neg (show ¬ a.length ≠ b.length from fun hn => hn h)]
    rw [beq_iff_eq, foldl_or_eq_zero_iff,
      zipWith_xor_all_zero_iff a.toList b.toList hlen]
    constructor
    · rintro ⟨-, hl⟩
      exact String.ext hl
    · intro hl
      exact ⟨rfl, by rw [hl]⟩
  · have hne : a ≠ b := fun heq => h (by rw [heq])
    rw [if_pos h]
    exact iff_of_false (by simp) hne

/-- C10: the PIN comparison returns false whenever the two strings differ in
length; for equal lengths it accumulates XORed character codes via OR across
all positions (no short-circuit — the fold runs over the whole zip before
the single comparison with 0); it returns true exactly when the submitted
PIN equals the manager PIN; and `unlock_closing` on an existing record fails
with 401 precisely when this comparison fails. -/
theorem claim_C10_constant_time_unlock :
    (∀ a b : String, a.length ≠ b.length → constant_time_equal a b = false)
    ∧ (∀ a b : String, a.length = b.length →
        constant_time_equal a b =
          ((List.zipWith (fun x y => x.toNat ^^^ y.toNat) a.toList b.toList).foldl
            (fun result v => result ||| v) 0 == 0))
    ∧ (∀ a b : String, constant_time_equal a b = true ↔ a = b)
    ∧ (∀ (db : DB) (rid pin mpin now : String) (c : Closing),
        getClosing db rid = some c →
        ((unlock_closing db rid pin mpin now).2 = .error 401 ↔
          constant_time_equal pin.trim mpin.trim = false)) := by
  refine ⟨?_, ?_, constant_time_equal_iff, ?_⟩
  · intro a b h
    unfold constant_time_equal
    rw [if_pos h]
  · intro a b h
    unfold constant_time_equal
    rw [if_neg (show ¬ a.length ≠ b.length from fun hn => hn h)]
  · intro db rid pin mpin now c hget
    cases hct : constant_time_equal pin.trim mpin.trim with
    | false => simp [unlock_closing, hget, hct]
    | true => simp [unlock_closing, hget, hct]

/-! C9: remaining_budget clamping is inconsistent across write paths. -/

/-- C9: remaining_budget nonnegativity holds only on direct writes — the
weekly-budget draft-edit path and the lock-recompute path both write
`remaining_budget = max(0, total − deducted)`, but the verification delta
path writes `previous_remaining − delta` with no lower clamp, and a concrete
verify run drives the stored remaining budget to −140. -/
theorem claim_C9_clamping_inconsistent :
    (∀ (db : DB) (store_id : String) (ws : Nat) (k br : Money) (today : Nat)
        (now newId : String) (record : Budget),
        store_id ≠ "" → ws % 7 = 0 → monday_of_week today ≤ ws →
        db.budgets.filter (fun b => b.storeId == store_id && b.weekStart == ws) = [record] →
        record.status ≠ "Locked" →
        (upsert_weekly_budget db store_id ws k br today now newId).1.budgets
          = db.budgets.map (fun b =>
              if b.id == record.id then
                { b with
                  store := [store_id], storeId := store_id
                  kitchenWeekly := k, barWeekly := br
                  weeklyBudgetAmount := k + br
                  remainingBudget := max 0 (k + br - record.foodCostDeducted)
                  lastUpdatedAt := now }
              else b))
    ∧ (∀ (db : DB) (budget_id store_id : Option String) (ws : Nat) (pk pb : Option Money)
        (locked_by now : String) (record : Budget),
        ¬ (budget_id.isNone ∧ store_id.isNone) → ws % 7 = 0 →
        lock_find_record db budget_id store_id ws = some record →
        ¬ record.status.toLower = "locked" →
        getBudget db record.id = some record →
        (getBudget (lock_weekly_budget db budget_id store_id (some ws) pk pb locked_by now).1
            record.id).map (fun b => b.remainingBudget)
          = some (max 0 (pk.getD record.kitchenWeekly + pb.getD record.barWeekly -
              verified_food_spend_sum db (lock_store_id_str store_id) ws)))
    ∧ ((verify_closing exampleDB3 "r1" "Verified" "mgr" "" "t2").1.budgets.map
          (fun b => b.remainingBudget) = [(-140 : Money)]
        ∧ ((-140 : Money) < 0)) := by
  refine ⟨?_, ?_, ?_⟩
  · intro db store_id ws k br today now newId record h1 h2 h3 hfound h5
    simp only [upsert_weekly_budget]
    rw [if_neg h1, if_neg (show ¬ ws % 7 ≠ 0 from fun hn => hn h2),
      if_neg (not_lt.mpr h3), hfound]
    simp only [List.length_cons, List.length_nil, List.head?_cons]
    rw [if_neg (by omega : ¬ ((0 : Nat) + 1 > 1)), if_neg h5]
    rfl
  · intro db budget_id store_id ws pk pb locked_by now record hbs hws hrec hnl hgb
    simp only [lock_weekly_budget_not_locked db budget_id store_id ws pk pb locked_by now
      record hbs hws hrec hnl]
    rw [getBudget_updateBudget_self db record.id
      (lock_budget_update record (pk.getD record.kitchenWeekly) (pb.getD record.barWeekly)
        (pk.getD record.kitchenWeekly + pb.getD record.barWeekly)
        (verified_food_spend_sum db (lock_store_id_str store_id) ws)
        (max 0 (pk.getD record.kitchenWeekly + pb.getD record.barWeekly -
          verified_food_spend_sum db (lock_store_id_str store_id) ws))
        locked_by now)
      (fun b => rfl) record hgb]
    rfl
  · constructor
    · with_unfolding_all decide
    · with_unfolding_all decide

/-- Witness for C9 at concrete inputs: a draft edit that clamps, a lock that
clamps, alongside the negative store state already exhibited in the claim
theorem. -/
theorem claim_C9_witness :
    (upsert_weekly_budget exampleDB4 "s1" 0 20 5 0 "t3" "nb").1.budgets
      = exampleDB4.budgets.map (fun b =>
          if b.id == budgetDraft.id then
            { b with
              store := ["s1"], storeId := "s1"
              kitchenWeekly := 20, barWeekly := 5
              weeklyBudgetAmount := 20 + 5
              remainingBudget := max 0 (20 + 5 - budgetDraft.foodCostDeducted)
              lastUpdatedAt := "t3" }
          else b)
    ∧ (getBudget (lock_weekly_budget exampleDB4 none (some "s1") (some 0) none none
          "mgr" "t4").1 budgetDraft.id).map (fun b => b.remainingBudget)
        = some (max 0 ((none : Option Money).getD budgetDraft.kitchenWeekly
            + (none : Option Money).getD budgetDraft.barWeekly
            - verified_food_spend_sum exampleDB4 (lock_store_id_str (some "s1")) 0)) :=
  ⟨claim_C9_clamping_inconsistent.1 exampleDB4 "s1" 0 20 5 0 "t3" "nb" budgetDraft
      (by decide) (by decide) (by decide) (by with_unfolding_all decide)
      (by with_unfolding_all decide),
   claim_C9_clamping_inconsistent.2.1 exampleDB4 none (some "s1") 0 none none "mgr" "t4"
      budgetDraft (by decide) (by decide) (by with_unfolding_all decide)
      (by with_unfolding_all decide) (by with_unfolding_all decide)⟩

/-! C7: net sales may never exceed total sales. -/

/-- The upsert validation block always fails when `net_sales > total_sales`
(possibly at an earlier rule, but it never returns `none`). -/
theorem upsert_validation_net_gt (p : ClosingCreate) (n t : Money)
    (hn : p.net_sales = some n) (ht : p.total_sales = some t) (hgt : t < n) :
    ∃ c, upsert_validation p = some c := by
  unfold upsert_validation
  by_cases h1 : ((upsert_numeric_fields p).any (fun v =>
      match v with
      | some x => decide (x < 0)
      | none => false)) = true
  · exact ⟨400, by rw [if_pos h1]⟩
  · refine ⟨400, ?_⟩
    rw [if_neg h1]
    have hc : (match p.total_sales, p.net_sales with
               | some t', some n' => decide (n' > t')
               | _, _ => false) = true := by
      rw [ht, hn]
      simpa using hgt
    rw [if_pos hc]

/-- C7: a closing submission with `net_sales > total_sales` is always
rejected with an error, regardless of all other field values, on the upsert
path and on the patch path (whose merged-view validation block also rejects
it, and which in fact errors on every request). -/
theorem claim_C7_net_gt_total_rejected :
    (∀ (db : DB) (p : ClosingCreate) (now newId defT : String) (n t : Money),
        p.net_sales = some n → p.total_sales = some t → t < n →
        (upsert_closing db p now newId defT).1 = db
        ∧ ∃ e, (upsert_closing db p now newId defT).2 = Except.error e)
    ∧ (∀ (m : MergedView) (n t : Money),
        m.netSales = some n → m.totalSales = some t → t < n →
        patch_validation m ≠ none)
    ∧ (∀ (db : DB) (rid : String) (u : List (String × Money)),
        (patch_closing db rid u).1 = db
        ∧ ∃ e, (patch_closing db rid u).2 = Except.error e) := by
  refine ⟨?_, ?_, ?_⟩
  · intro db p now newId defT n t hn ht hgt
    obtain ⟨code, hv⟩ := upsert_validation_net_gt p n t hn ht hgt
    by_cases hs : (((p.store_id.getD "").trim = "") ∧
        upsert_resolve_store_name db ((p.store_id.getD "").trim) ((p.store.getD "").trim) = "")
    · simp only [upsert_closing]
      rw [if_pos hs]
      exact ⟨by trivial, 400, by trivial⟩
    · simp only [upsert_closing]
      rw [if_neg hs]
      simp only [hv]
      exact ⟨by trivial, code, by trivial⟩
  · intro m n t hn ht hgt
    unfold patch_validation
    by_cases h1 : (([m.totalSales, m.netSales, m.cashPayments, m.cardPayments,
        m.digitalPayments, m.grabPayments, m.voucherPayments, m.bankTransfer,
        m.marketingExpenses, m.actualCash, m.cashFloat, m.kitchenBudget,
        m.barBudget, m.nonFoodBudget, m.staffMealBudget,
        m.cashForDeposit].any (fun v =>
          match v with
          | some x => decide (x < 0)
          | none => false)) = true)
    · rw [if_pos h1]
      simp
    · rw [if_neg h1]
      have hc : (match m.totalSales, m.netSales with
                 | some t', some n' => decide (n' > t')
                 | _, _ => false) = true := by
        rw [ht, hn]
        simpa using hgt
      rw [if_pos hc]
      simp
  · intro db rid u
    cases u with
    | nil => exact ⟨rfl, 400, rfl⟩
    | cons a t => exact ⟨rfl, 500, rfl⟩

/-- Witness for C7 at a concrete submission with net 120 > total 100. -/
theorem claim_C7_witness :
    ((upsert_closing exampleDB { payloadTol1 with net_sales := some 120 } "t5" "n1"
        "demo-tenant").1 = exampleDB
      ∧ ∃ e, (upsert_closing exampleDB { payloadTol1 with net_sales := some 120 } "t5" "n1"
          "demo-tenant").2 = Except.error e)
    ∧ patch_validation { mergedC6 with netSales := some 120 } ≠ none :=
  ⟨claim_C7_net_gt_total_rejected.1 exampleDB
      { payloadTol1 with net_sales := some 120 } "t5" "n1" "demo-tenant" 120 100
      rfl rfl (by norm_num),
   claim_C7_net_gt_total_rejected.2.1 { mergedC6 with netSales := some 120 } 120 100
      rfl rfl (by norm_num)⟩

/-! C4: upsert against an existing record for the same (store, date). -/

theorem upsert_existing_update_id (p : ClosingCreate)
    (store_id store_name tenant_id now prev : String) (c : Closing) :
    (upsert_existing_update p store_id store_name tenant_id now prev c).id = c.id := by
  unfold upsert_existing_update upsert_apply_fields
  by_cases h : prev = "Needs Update" <;> simp [h]

/-- C4: when an upsert finds an existing record for the same (store,
business_date) and the submission itself is valid, a record whose
`lock_status` is Locked or Verified and whose `verified_status` is not
"Needs Update" causes a 403 rejection with the store unchanged; a record in
"Needs Update" is resubmitted: the stored record ends with
`verified_status = Pending`, `verified_at` cleared, `food_cost_deducted = 0`
and `lock_status = Locked`. -/
theorem claim_C4_upsert_locked_or_resubmit (db : DB) (p : ClosingCreate)
    (now newId defT : String) (r : Closing)
    (hs : ¬ ((((p.store_id.getD "").trim = "") ∧
        upsert_resolve_store_name db ((p.store_id.getD "").trim) ((p.store.getD "").trim) = "")))
    (hv : upsert_validation p = none)
    (hfind : upsert_find_existing db p.business_date ((p.store_id.getD "").trim)
        (upsert_resolve_store_name db ((p.store_id.getD "").trim) ((p.store.getD "").trim))
        = some r) :
    ((r.lockStatus = "Locked" ∨ r.lockStatus = "Verified") →
      r.verifiedStatus ≠ "Needs Update" →
      upsert_closing db p now newId defT = (db, .error 403))
    ∧ (r.verifiedStatus = "Needs Update" →
      getClosing db r.id = some r →
      ∃ fresh, (upsert_closing db p now newId defT).2 = .ok (.updated_locked, fresh)
        ∧ fresh.verifiedStatus = "Pending"
        ∧ fresh.verifiedAt = none
        ∧ fresh.foodCostDeducted = 0
        ∧ fresh.lockStatus = "Locked") := by
  constructor
  · intro hl hnu
    simp only [upsert_closing]
    rw [if_neg hs]
    simp only [hv, hfind]
    rw [if_pos ⟨hl, hnu⟩]
  · intro hnu hgc
    simp only [upsert_closing]
    rw [if_neg hs]
    simp only [hv, hfind]
    rw [if_neg (fun hc => hc.2 hnu)]
    rw [getClosing_updateClosing_self db r.id
      (upsert_existing_update p ((p.store_id.getD "").trim)
        (upsert_resolve_store_name db ((p.store_id.getD "").trim) ((p.store.getD "").trim))
        (resolve_tenant_id p.tenant_id defT) now r.verifiedStatus)
      (upsert_existing_update_id p _ _ _ _ r.verifiedStatus) r hgc]
    refine ⟨upsert_existing_update p ((p.store_id.getD "").trim)
      (upsert_resolve_store_name db ((p.store_id.getD "").trim) ((p.store.getD "").trim))
      (resolve_tenant_id p.tenant_id defT) now r.verifiedStatus r, by trivial,
      ?_, ?_, ?_, ?_⟩ <;>
    simp [upsert_existing_update, hnu]

/-- Witness for C4: a locked Pending record rejects the resubmission with
403; a Needs-Update record accepts it and resets the verification state. -/
theorem claim_C4_witness :
    upsert_closing exampleDB payloadOk "t6" "n2" "demo-tenant" = (exampleDB, .error 403)
    ∧ ∃ fresh, (upsert_closing exampleDB5 payloadOk "t6" "n2" "demo-tenant").2
        = .ok (.updated_locked, fresh)
      ∧ fresh.verifiedStatus = "Pending"
      ∧ fresh.verifiedAt = none
      ∧ fresh.foodCostDeducted = 0
      ∧ fresh.lockStatus = "Locked" :=
  ⟨(claim_C4_upsert_locked_or_resubmit exampleDB payloadOk "t6" "n2" "demo-tenant"
      closingR1 (by with_unfolding_all decide) (by with_unfolding_all decide)
      (by with_unfolding_all decide)).1 (Or.inl rfl) (by decide),
   (claim_C4_upsert_locked_or_resubmit exampleDB5 payloadOk "t6" "n2" "demo-tenant"
      closingNU (by with_unfolding_all decide) (by with_unfolding_all decide)
      (by with_unfolding_all decide)).2 rfl (by with_unfolding_all decide)⟩

/-! C6: the ±1 payments-sum tolerance. -/

/-- C6 counterexample: the claim asserts the tolerance check accepts a
difference of at most 1 unit on the patch path as well, but a patch whose
merged view balances exactly (difference 0, and `patch_validation` itself
would accept it) is still rejected — every non-empty patch fails with 500
before validation (the undefined `FORMULA_FIELDS`, src/main.py:1861). -/
theorem claim_C6_counterexample :
    patch_validation mergedC6 = none
    ∧ |merged_payments_sum mergedC6 - (100 : Money)| ≤ 1
    ∧ mergedC6.totalSales = some 100
    ∧ patch_closing exampleDB6 "r6" [("Card Payments", 0)] = (exampleDB6, .error 500) := by
  refine ⟨?_, ?_, ?_, ?_⟩ <;> with_unfolding_all decide

/-- C6 (amended): on the create/upsert path the validation rejects exactly
when `|payments_sum − total_sales| > 1` (given the other rules pass), and the
patch path's merged-view validation block implements the same fixed ±1 rule —
but that block is unreachable: every non-empty patch fails with 500 before
validation, so nothing is ever accepted on the patch path. -/
theorem claim_C6_amended_tolerance :
    (∀ (p : ClosingCreate) (t : Money), p.total_sales = some t →
      ((upsert_numeric_fields p).any (fun v =>
        match v with
        | some x => decide (x < 0)
        | none => false)) = false →
      (match p.total_sales, p.net_sales with
       | some t', some n' => decide (n' > t')
       | _, _ => false) = false →
      (match p.net_sales with
       | some n' => decide (budget_total p > n')
       | none => false) = false →
      (upsert_validation p = none ↔ |payments_sum p - t| ≤ 1))
    ∧ (∀ (m : MergedView) (t : Money), m.totalSales = some t →
      (([m.totalSales, m.netSales, m.cashPayments, m.cardPayments,
         m.digitalPayments, m.grabPayments, m.voucherPayments, m.bankTransfer,
         m.marketingExpenses, m.actualCash, m.cashFloat, m.kitchenBudget,
         m.barBudget, m.nonFoodBudget, m.staffMealBudget,
         m.cashForDeposit].any (fun v =>
          match v with
          | some x => decide (x < 0)
          | none => false)) = false) →
      (match m.totalSales, m.netSales with
       | some t', some n' => decide (n' > t')
       | _, _ => false) = false →
      (match m.actualCash, m.cashFloat, m.cashForDeposit with
       | some ac, some cf, some cd => decide (|ac - cf - cd| > 1)
       | _, _, _ => false) = false →
      (match m.netSales with
       | some n' =>
         decide (m.kitchenBudget.getD 0 + m.barBudget.getD 0
           + m.nonFoodBudget.getD 0 + m.staffMealBudget.getD 0 > n')
       | none => false) = false →
      (patch_validation m = none ↔ |merged_payments_sum m - t| ≤ 1))
    ∧ (∀ (db : DB) (rid : String) (u : List (String × Money)), u ≠ [] →
        patch_closing db rid u = (db, .error 500)) := by
  refine ⟨?_, ?_, ?_⟩
  · intro p t ht h1 h2 h4
    unfold upsert_validation
    rw [if_neg (by simp [h1]), if_neg (by simp [h2]), ht]
    by_cases habs : |payments_sum p - t| > 1
    · rw [if_pos (by simpa using habs)]
      exact iff_of_false (by simp) (not_le.mpr habs)
    · rw [if_neg (by simpa using habs), if_neg (by simp [h4])]
      exact iff_of_true rfl (not_lt.mp habs)
  · intro m t ht h1 h2 h3 h4
    unfold patch_validation
    rw [if_neg (by simp [h1]), if_neg (by simp [h2]), ht]
    by_cases habs : |merged_payments_sum m - t| > 1
    · rw [if_pos (by simpa using habs)]
      exact iff_of_false (by simp) (not_le.mpr habs)
    · rw [if_neg (by simpa using habs), if_neg (by simp [h3]), if_neg (by simp [h4])]
      exact iff_of_true rfl (not_lt.mp habs)
  · intro db rid u hu
    unfold patch_closing
    cases u with
    | nil => exact absurd rfl hu
    | cons a t => rfl

/-- Witness for C6 at the tolerance boundary: difference exactly 1 is
accepted by the upsert validation, difference 1.01 is rejected. -/
theorem claim_C6_witness :
    upsert_validation payloadTol1 = none ∧ upsert_validation payloadTol101 ≠ none := by
  constructor
  · exact (claim_C6_amended_tolerance.1 payloadTol1 100 rfl
      (by with_unfolding_all decide) (by with_unfolding_all decide)
      (by with_unfolding_all decide)).mpr (by with_unfolding_all decide)
  · intro h
    exact absurd ((claim_C6_amended_tolerance.1 payloadTol101 100 rfl
      (by with_unfolding_all decide) (by with_unfolding_all decide)
      (by with_unfolding_all decide)).mp h) (by with_unfolding_all decide)

/-- Witness for C10: a wrong-length PIN, the reflexive equality case, and a
concrete 401 on `exampleDB6`. -/
theorem claim_C10_witness :
    constant_time_equal "1234" "123" = false
    ∧ (constant_time_equal "1234" "1234" = true ↔ ("1234" : String) = "1234")
    ∧ ((unlock_closing exampleDB6 "r6" "9999" "1234" "t0").2 = .error 401 ↔
        constant_time_equal ("9999" : String).trim ("1234" : String).trim = false) :=
  ⟨claim_C10_constant_time_unlock.1 "1234" "123" (by decide),
   claim_C10_constant_time_unlock.2.2.1 "1234" "1234",
   claim_C10_constant_time_unlock.2.2.2 exampleDB6 "r6" "9999" "1234" "t0" closingC6
     (by decide)⟩

end RestOps
